import Mathlib

/-
Verification of the visual-grounding pipeline of `src/server.py`
(repository `mikesmullin/browser`).

The embedding models the pure computational content of the FastAPI
handlers `visualize`, `detect`, `execute`, `click` and `fill_endpoint`.
External effects (the browser driver's `page.evaluate` / `page.screenshot`,
the YOLO model call, Python's `json.loads`) are passed in as explicit
arguments; each handler is a total function from those interaction results
to its HTTP response (`Except` for the caught-exception / HTTP-500 path)
paired with the list of artifact filenames it writes to storage.
Coordinates coming from JavaScript `getBoundingClientRect` and from the
detector are floats in the source; they are modelled as rationals.
-/

/-- Python `int(f)` applied to a float: truncation toward zero
(`int(2.7) = 2`, `int(-2.7) = -2`). -/
def pyInt (q : ℚ) : ℤ := if 0 ≤ q then ⌊q⌋ else ⌈q⌉

/-- Python `s.replace(old, new)` for a single-character pattern and a
single-character replacement, as in `server.py` line 309. -/
def pyReplaceChar (old new : Char) (s : List Char) : List Char :=
  s.map (fun c => if c = old then new else c)

/-- Python `s.strip()`: remove leading and trailing whitespace. -/
def pyStrip (s : List Char) : List Char :=
  ((s.dropWhile Char.isWhitespace).reverse.dropWhile Char.isWhitespace).reverse

/-- A captured screenshot raster (`page.screenshot`, decoded by PIL):
pixel dimensions of the frame. Pixel contents play no role in any claim. -/
structure Frame where
  width : ℕ
  height : ℕ
deriving DecidableEq

/-- One element record produced by the DOM-scan script of `visualize`
(`server.py` lines 240-255): tag name, `innerText` sliced to 20 chars,
and the `getBoundingClientRect` geometry. -/
structure Element where
  tag : String
  text : String
  x : ℚ
  y : ℚ
  w : ℚ
  h : ℚ
deriving DecidableEq

/-- A DOM element as seen by the scan script: its tag, `innerText`,
bounding client rect, and whether its `offsetParent` is non-null. -/
structure DomEl where
  tag : String
  innerText : String
  x : ℚ
  y : ℚ
  w : ℚ
  h : ℚ
  offsetParentSome : Bool
deriving DecidableEq

/-- The `visible` field computed by the scan script (line 252):
`rect.width > 0 && rect.height > 0 && el.offsetParent !== null`. -/
def jsVisible (el : DomEl) : Bool :=
  decide (0 < el.w) && decide (0 < el.h) && el.offsetParentSome

/-- JavaScript `s.slice(0, 20)` (line 247). -/
def jsSlice20 (s : String) : String := ⟨s.data.take 20⟩

/-- The DOM-scan script of `visualize` (lines 240-255): map each
interactive element (the elements of `dom`, in document traversal order)
to its record, keeping only visible ones.  The source maps first and then
filters on the computed `visible` field; since `visible` is computed
per-element this equals filtering first. -/
def scanScript (dom : List DomEl) : List Element :=
  (dom.filter jsVisible).map
    (fun el => { tag := el.tag, text := jsSlice20 el.innerText,
                 x := el.x, y := el.y, w := el.w, h := el.h })

/-- A Python value as produced by `page.evaluate` and consumed by the
fallback-parsing block of `visualize` (lines 259-272).  Lists whose items
are well-formed region dicts are typed as `List Element`; an item lacking
the expected keys would raise in the annotate loop and surface as the
generic HTTP-500 error, which no claim here exercises. -/
inductive PyVal where
  | pstr : String → PyVal
  | plist : List Element → PyVal
  | pdict : List (String × PyVal) → PyVal
  | pother : PyVal

/-- The element-extraction block of `visualize` (lines 259-272):
  elements = response;
  if the response is a string, `json.loads` it, and on a parse error set
  `elements = []`; else if it is a dict with a `result` key take that;
  finally, if `elements` is not a list, set `elements = []`.
`loads` is Python's `json.loads`, returning `none` when it raises. -/
def parseElements (loads : String → Option PyVal) (resp : PyVal) : List Element :=
  let elements : PyVal :=
    match resp with
    | .pstr s =>
        match loads s with
        | some v => v
        | none => .plist []
    | .pdict fields =>
        match List.lookup "result" fields with
        | some v => v
        | none => .pdict fields
    | v => v
  match elements with
  | .plist xs => xs
  | _ => []

/-- `server.py` line 306: `cx = int(el['x'] + el['w'] / 2)`. -/
def centerX (el : Element) : ℤ := pyInt (el.x + el.w / 2)

/-- `server.py` line 307: `cy = int(el['y'] + el['h'] / 2)`. -/
def centerY (el : Element) : ℤ := pyInt (el.y + el.h / 2)

/-- Label sanitization of `visualize` (line 309):
`text.replace(",", " ").replace("\n", " ").strip()`. -/
def sanitize (s : String) : String :=
  ⟨pyStrip (pyReplaceChar '\n' ' ' (pyReplaceChar ',' ' ' s.data))⟩

/-- One CSV row of `visualize` (line 310): the f-string
produced for region number `i`. -/
def csvRow (i : ℕ) (el : Element) : String :=
  toString (centerX el) ++ "," ++ toString (centerY el) ++ ","
    ++ toString i ++ "," ++ sanitize el.text

/-- The CSV row list of `visualize` (lines 303-310): one row per element,
in `enumerate` order. -/
def csvData (elements : List Element) : List String :=
  elements.enum.map (fun p => csvRow p.1 p.2)

/-- Python `"\n".join(rows)` (lines 315 and 322). -/
def joinLines (rows : List String) : String := String.intercalate "\n" rows

/-- Image artifact name of `visualize` (line 298); the constant
`SCREENSHOTS_DIR` prefix under which it is saved is elided. -/
def visualizedPngName (t : ℕ) : String := "visualized_" ++ toString t ++ ".png"

/-- CSV artifact name of `visualize` (line 312). -/
def visualizedCsvName (t : ℕ) : String := "visualized_" ++ toString t ++ ".csv"

/-- Image artifact name of `detect` (line 372). -/
def detectedPngName (t : ℕ) : String := "detected_" ++ toString t ++ ".png"

/-- The JSON body returned by a successful `visualize` call
(lines 317-323). -/
structure VisResponse where
  success : Bool
  path : String
  csv_path : String
  elements_count : ℕ
  csv : String
deriving DecidableEq

/-- The `visualize` handler (`server.py` lines 231-326).
Arguments: `loads` is `json.loads`; `evalResult` is the outcome of
`page.evaluate(script)` (error = the call raised); `shot` is the outcome
of `page.screenshot()`; `timestamp` is `int(time.time())` at line 297.
Returns the HTTP outcome (`error` = caught exception, HTTP 500) and the
list of artifact filenames written.  The source evaluates, parses,
screenshots, draws, saves the PNG, builds the CSV rows, saves the CSV,
and returns; any raise before the saves writes nothing. -/
def visualize (loads : String → Option PyVal)
    (evalResult : Except String PyVal) (shot : Except String Frame)
    (timestamp : ℕ) : Except String VisResponse × List String :=
  match evalResult with
  | .error e => (.error e, [])
  | .ok resp =>
      let elements := parseElements loads resp
      match shot with
      | .error e => (.error e, [])
      | .ok _frame =>
          let rows := csvData elements
          (.ok { success := true
               , path := visualizedPngName timestamp
               , csv_path := visualizedCsvName timestamp
               , elements_count := elements.length
               , csv := joinLines rows },
           [visualizedPngName timestamp, visualizedCsvName timestamp])

/-- One YOLO detection record built by `detect` (lines 347-357). -/
structure Detection where
  x1 : ℚ
  y1 : ℚ
  x2 : ℚ
  y2 : ℚ
  conf : ℚ
  label : String
deriving DecidableEq

/-- One CSV row of `detect` (lines 366-368):
`cx = int((x1 + x2) / 2)`, `cy = int((y1 + y2) / 2)`, then
the f-string for detection number `i` (the label is not sanitized here). -/
def detCsvRow (i : ℕ) (d : Detection) : String :=
  toString (pyInt ((d.x1 + d.x2) / 2)) ++ "," ++ toString (pyInt ((d.y1 + d.y2) / 2))
    ++ "," ++ toString i ++ "," ++ d.label

/-- The CSV row list of `detect` (lines 361-368). -/
def detCsvData (dets : List Detection) : List String :=
  dets.enum.map (fun p => detCsvRow p.1 p.2)

/-- The JSON body returned by a successful `detect` call (lines 376-381).
There is no `csv_path` field and no CSV file: `detect` returns the CSV
text inline and writes only the annotated PNG. -/
structure DetectResponse where
  success : Bool
  detections : List Detection
  image_path : String
  csv : String
deriving DecidableEq

/-- The `detect` handler (`server.py` lines 328-384).
`shot` is the `page.screenshot()` outcome; `infer` is the outcome of
loading the YOLO model and running `model(img)` plus unpacking its boxes
(error = a raise anywhere in lines 344-357); `timestamp` is
`int(time.time())` at line 371.  The PNG is saved only after inference
succeeds; a raise is caught and returned as HTTP 500 with nothing
written. -/
def detect (shot : Except String Frame) (infer : Except String (List Detection))
    (timestamp : ℕ) : Except String DetectResponse × List String :=
  match shot with
  | .error e => (.error e, [])
  | .ok _frame =>
      match infer with
      | .error e => (.error e, [])
      | .ok dets =>
          (.ok { success := true
               , detections := dets
               , image_path := detectedPngName timestamp
               , csv := joinLines (detCsvData dets) },
           [detectedPngName timestamp])

/-- A page element as touched by the click / fill scripts: only its
`value` property matters to the embedding. -/
structure PageEl where
  value : String
deriving DecidableEq

/-- JavaScript `document.querySelector(sel)` over a page modelled as the
document-ordered list of (selector it matches, element): the first match,
or `none`. -/
def jsQuerySelector (doc : List (String × PageEl)) (sel : String) : Option PageEl :=
  (doc.find? (fun p => decide (p.1 = sel))).map Prod.snd

/-- The script interpolated by `click` (`server.py` lines 170-179):
if `querySelector` finds an element it is clicked and the script returns
`true`; otherwise the script returns `false`.  The click side effect on
the page is outside the modelled state. -/
def clickScript (doc : List (String × PageEl)) (sel : String) : Bool :=
  (jsQuerySelector doc sel).isSome

/-- Assign `value` to the first element of the document matching `sel`
(the element `querySelector` returns). -/
def setFirstValue : List (String × PageEl) → String → String → List (String × PageEl)
  | [], _, _ => []
  | p :: rest, sel, v =>
      if p.1 = sel then (p.1, { value := v }) :: rest
      else p :: setFirstValue rest sel v

/-- The script interpolated by `fill_endpoint` (lines 449-460): if
`querySelector` finds an element, set its `value`, dispatch the events,
and return `true`; else return `false`.  Result plus updated document. -/
def fillScript (doc : List (String × PageEl)) (sel v : String) :
    Bool × List (String × PageEl) :=
  match jsQuerySelector doc sel with
  | some _ => (true, setFirstValue doc sel v)
  | none => (false, doc)

/-- The JSON body returned by a successful `execute` call (line 203).
The two interpolated scripts modelled here return booleans, so `result`
is a `Bool`. -/
structure ExecResponse where
  success : Bool
  result : Bool
deriving DecidableEq

/-- The `execute` handler (lines 184-206): evaluate the script; on success
return `(success := true, result)`; a raise is caught as HTTP 500. -/
def execute (evalResult : Except String Bool) : Except String ExecResponse :=
  match evalResult with
  | .error e => .error e
  | .ok r => .ok { success := true, result := r }

/-- The `click` handler (lines 162-182): build the querySelector script
and delegate to `execute`.  The script itself evaluates without raising;
its boolean result reflects whether the selector matched. -/
def click (doc : List (String × PageEl)) (sel : String) :
    Except String ExecResponse :=
  execute (.ok (clickScript doc sel))

/-- The `fill_endpoint` handler (lines 446-461): build the fill script and
delegate to `execute`; pairs the HTTP outcome with the updated page. -/
def fill_endpoint (doc : List (String × PageEl)) (sel v : String) :
    Except String ExecResponse × List (String × PageEl) :=
  (execute (.ok (fillScript doc sel v).1), (fillScript doc sel v).2)

/-- One awaited browser-touching operation of a grounding call. -/
inductive Stage where
  | evaluate : Stage
  | screenshot : Stage
deriving DecidableEq

/-- The awaited browser operations of one `visualize` call in program
order: `page.evaluate` (line 257) then `page.screenshot` (line 274).
`visualize` takes no lock between or around them. -/
def visualizeStages : List Stage := [Stage.evaluate, Stage.screenshot]

/-- Interleaving semantics of two concurrent calls on the single shared
browser: a schedule says which call's next awaited operation runs at each
step (`true` = call A, `false` = call B); the event-loop may pick any
schedule because no lock constrains it. -/
def interleave : List Bool → List Stage → List Stage → List (Bool × Stage)
  | [], _, _ => []
  | true :: s, x :: xs, ys => (true, x) :: interleave s xs ys
  | true :: s, [], ys => interleave s [] ys
  | false :: s, xs, y :: ys => (false, y) :: interleave s xs ys
  | false :: s, xs, [] => interleave s xs []

/-- Number of owner alternations in a trace projection. -/
def countSwitches : List Bool → ℕ
  | [] => 0
  | [_] => 0
  | a :: b :: rest => (if a = b then 0 else 1) + countSwitches (b :: rest)

/-- A trace is serialized (single-flight) when one call's browser
operations all happen before the other's: at most one owner switch. -/
def serializedTrace (tr : List (Bool × Stage)) : Bool :=
  decide (countSwitches (tr.map Prod.fst) ≤ 1)

/-- The property asserted by the spec for encoded centers: every region's
encoded center lies within the frame's pixel bounds.  Stated from the
spec's words, to be compared with what `csvData` actually guarantees. -/
def centersInBounds (elements : List Element) (fr : Frame) : Prop :=
  ∀ el ∈ elements, 0 ≤ centerX el ∧ centerX el < (fr.width : ℤ) ∧
    0 ≤ centerY el ∧ centerY el < (fr.height : ℤ)

/-- The `elements_count` reported by a `visualize` outcome (0 on the
error path); a projection used to tell two calls' responses apart. -/
def reportedCount (r : Except String VisResponse × List String) : ℕ :=
  match r.1 with
  | .ok resp => resp.elements_count
  | .error _ => 0

lemma csvData_get? (elements : List Element) (i : ℕ) :
    (csvData elements).get? i = (elements.get? i).map (fun el => csvRow i el) := by
  simp [csvData, List.get?_map, List.get?_enum, Option.map_map]
  rfl

lemma mem_of_mem_dropWhile {p : Char → Bool} {l : List Char} {c : Char}
    (h : c ∈ l.dropWhile p) : c ∈ l := by
  induction l with
  | nil => simpa using h
  | cons a l ih =>
      rw [List.dropWhile_cons] at h
      by_cases hp : p a
      · simp only [hp, if_true] at h
        exact List.mem_cons_of_mem _ (ih h)
      · simp only [hp, if_false] at h
        exact h

lemma mem_pyStrip {l : List Char} {c : Char} (h : c ∈ pyStrip l) : c ∈ l := by
  unfold pyStrip at h
  rw [List.mem_reverse] at h
  have h1 := mem_of_mem_dropWhile h
  rw [List.mem_reverse] at h1
  exact mem_of_mem_dropWhile h1

lemma pyReplaceChar_no_old {old new : Char} (hne : new ≠ old) (l : List Char) :
    old ∉ pyReplaceChar old new l := by
  intro h
  rcases List.mem_map.1 h with ⟨a, -, ha⟩
  by_cases h1 : a = old
  · rw [if_pos h1] at ha
    exact hne ha
  · rw [if_neg h1] at ha
    exact h1 ha

lemma pyReplaceChar_not_mem {old new d : Char} (hd : d ≠ new)
    {l : List Char} (hl : d ∉ l) : d ∉ pyReplaceChar old new l := by
  intro h
  rcases List.mem_map.1 h with ⟨a, hmem, ha⟩
  by_cases h1 : a = old
  · rw [if_pos h1] at ha
    exact hd ha.symm
  · rw [if_neg h1] at ha
    exact hl (ha ▸ hmem)

lemma center_bound {x w : ℚ} {n : ℕ} (hx : 0 ≤ x) (hw : 0 < w)
    (hxw : x + w ≤ (n : ℚ)) :
    0 ≤ pyInt (x + w / 2) ∧ pyInt (x + w / 2) < (n : ℤ) := by
  have hq : (0 : ℚ) ≤ x + w / 2 := by linarith
  have hfloor : pyInt (x + w / 2) = ⌊x + w / 2⌋ := if_pos hq
  constructor
  · rw [hfloor]
    exact Int.floor_nonneg.2 hq
  · rw [hfloor]
    apply Int.floor_lt.2
    push_cast
    linarith

/-- Claim C1: for every region list, `visualize`'s encoder emits exactly
`len(regions)` CSV rows in `enumerate` order; row `i` is the f-string for
element `i` with id `i`, where the center is the box center truncated to
an integer; a region with box `(x=100, y=50, w=40, h=20)` yields the row
`"120,60,0,…"`, i.e. center `(120, 60)`. -/
theorem c1_encode_rows (elements : List Element) :
    (csvData elements).length = elements.length ∧
    (∀ i : ℕ, (csvData elements).get? i = (elements.get? i).map (fun el => csvRow i el)) ∧
    csvRow 0 { tag := "BUTTON", text := "Go", x := 100, y := 50, w := 40, h := 20 }
      = "120,60,0,Go" := by
  refine ⟨?_, fun i => csvData_get? elements i, ?_⟩
  · simp [csvData, List.enum_length]
  · have hx : centerX { tag := "BUTTON", text := "Go", x := 100, y := 50, w := 40, h := 20 }
        = 120 := by norm_num [centerX, pyInt]
    have hy : centerY { tag := "BUTTON", text := "Go", x := 100, y := 50, w := 40, h := 20 }
        = 60 := by norm_num [centerY, pyInt]
    rw [csvRow, hx, hy]
    decide

/-- Claim C5: the label sanitization of `visualize` leaves no raw comma
and no raw newline in any label, and sanitizes the label
`"Sign up, now\n!"` to `"Sign up  now !"`. -/
theorem c5_sanitize_labels (s : String) :
    ',' ∉ (sanitize s).data ∧ '\n' ∉ (sanitize s).data ∧
      sanitize "Sign up, now\n!" = "Sign up  now !" := by
  refine ⟨?_, ?_, by decide⟩
  · intro h
    have h1 := mem_pyStrip h
    exact @pyReplaceChar_not_mem '\n' ' ' ',' (by decide)
      (pyReplaceChar ',' ' ' s.data) (@pyReplaceChar_no_old ',' ' ' (by decide) s.data) h1
  · intro h
    have h1 := mem_pyStrip h
    exact @pyReplaceChar_no_old '\n' ' ' (by decide) (pyReplaceChar ',' ' ' s.data) h1

/-- Claim C4: when the detector raises during inference, the `detect`
call fails with exactly that one reported error and writes neither an
image nor a CSV artifact to storage. -/
theorem c4_detect_raise_writes_nothing (fr : Frame) (e : String) (t : ℕ) :
    detect (.ok fr) (.error e) t = (.error e, []) := rfl

/-- Claim C2 as stated is false: a `detect` call whose detector returns
zero boxes does succeed with `detections = []` and an empty CSV string,
but it writes no CSV artifact at all (only the annotated PNG), and its
response has no `csv_path` field — `DetectResponse` carries only
`success`, `detections`, `image_path` and `csv`.  Concretely, at a
800x600 frame and timestamp 100 the only file written is the PNG. -/
theorem c2_counterexample :
    (detect (.ok { width := 800, height := 600 }) (.ok []) 100).2 = ["detected_100.png"] ∧
    "detected_100.csv" ∉ (detect (.ok { width := 800, height := 600 }) (.ok []) 100).2 ∧
    (detect (.ok { width := 800, height := 600 }) (.ok []) 100).1 =
      .ok { success := true, detections := [], image_path := "detected_100.png", csv := "" } :=
  ⟨by decide, by decide, rfl⟩

/-- Claim C2 (amended): a `detect` call whose detector returns zero boxes
succeeds with `detections = []` and an empty CSV string in the response
rather than failing; only the annotated PNG artifact is written — no CSV
file is produced and the detect response carries no `csv_path`. -/
theorem c2_detect_zero_boxes (fr : Frame) (t : ℕ) :
    detect (.ok fr) (.ok []) t =
      (.ok { success := true, detections := [], image_path := detectedPngName t, csv := "" },
       [detectedPngName t]) := rfl

/-- Claim C3 as stated is false: when the evaluate result is a string
that `json.loads` cannot parse (here `"not json"`, on which Python's
`json.loads` raises), `visualize` does not fail — it silently converts
the parse failure into a successful response with an empty region list,
an empty CSV, and both artifacts written. -/
theorem c3_counterexample :
    (visualize (fun _ => none) (.ok (.pstr "not json"))
        (.ok { width := 800, height := 600 }) 7).1 =
      .ok { success := true, path := "visualized_7.png", csv_path := "visualized_7.csv",
            elements_count := 0, csv := "" } := rfl

/-- Claim C3 (amended): an evaluate invocation that raises does fail the
`visualize` call with that error and writes nothing, but an evaluate
result that cannot be parsed as a region list is converted into a
successful response with an empty region list instead of an error. -/
theorem c3_parse_failure_silent (loads : String → Option PyVal) (e s : String)
    (shot : Except String Frame) (fr : Frame) (t : ℕ) :
    (visualize loads (.error e) shot t).1 = .error e ∧
    (visualize loads (.error e) shot t).2 = [] ∧
    (loads s = none →
      (visualize loads (.ok (.pstr s)) (.ok fr) t).1 =
        .ok { success := true, path := visualizedPngName t, csv_path := visualizedCsvName t,
              elements_count := 0, csv := "" }) := by
  refine ⟨rfl, rfl, fun h => ?_⟩
  simp only [visualize, parseElements, h]
  rfl

/-- Witness for the amended claim C3 at a concrete input: `json.loads`
raising on the string `"not a list"` yields the empty success. -/
theorem c3_parse_failure_silent_witness :
    (visualize (fun _ => none) (.ok (.pstr "not a list"))
        (.ok { width := 800, height := 600 }) 9).1 =
      .ok { success := true, path := visualizedPngName 9, csv_path := visualizedCsvName 9,
            elements_count := 0, csv := "" } :=
  (c3_parse_failure_silent (fun _ => none) "err" "not a list"
    (.ok { width := 800, height := 600 }) { width := 800, height := 600 } 9).2.2 rfl

/-- Claim C6 as stated is false: the time-qualifier is the wall-clock
second, so two distinct calls (here: different scanned element lists,
hence different responses) that run in the same second write exactly the
same artifact filenames — a collision. -/
theorem c6_counterexample :
    reportedCount
        (visualize (fun _ => none)
          (.ok (.plist [{ tag := "BUTTON", text := "Go", x := 100, y := 50, w := 40, h := 20 }]))
          (.ok { width := 800, height := 600 }) 100) ≠
      reportedCount
        (visualize (fun _ => none) (.ok (.plist []))
          (.ok { width := 800, height := 600 }) 100) ∧
    (visualize (fun _ => none)
        (.ok (.plist [{ tag := "BUTTON", text := "Go", x := 100, y := 50, w := 40, h := 20 }]))
        (.ok { width := 800, height := 600 }) 100).2 =
      (visualize (fun _ => none) (.ok (.plist []))
        (.ok { width := 800, height := 600 }) 100).2 :=
  ⟨by decide, rfl⟩

/-- Claim C6 (amended): artifact names have the form
`visualized_{second}.png` / `visualized_{second}.csv` for `visualize` and
`detected_{second}.png` for `detect` (which writes no CSV); any two calls
that run in the same wall-clock second receive identical names, so the
time-qualifier distinguishes only calls whose integer seconds differ
(e.g. seconds 100 and 101). -/
theorem c6_artifact_names (loads : String → Option PyVal) (r1 r2 : PyVal)
    (dets : List Detection) (f1 f2 : Frame) (t : ℕ) :
    (visualize loads (.ok r1) (.ok f1) t).2 =
        [visualizedPngName t, visualizedCsvName t] ∧
    (detect (.ok f1) (.ok dets) t).2 = [detectedPngName t] ∧
    (visualize loads (.ok r1) (.ok f1) t).2 = (visualize loads (.ok r2) (.ok f2) t).2 ∧
    visualizedPngName 100 ≠ visualizedPngName 101 :=
  ⟨rfl, rfl, rfl, by decide⟩

/-- Claim C7 as stated is false: the scan script includes any visible
element regardless of where its rect lies, and the encoder does not clamp
or filter centers against the frame.  A visible element whose rect starts
at `x = -100` (scrolled partly out of view) is emitted with center
`(-95, 5)`, which lies outside every frame's pixel bounds. -/
theorem c7_counterexample :
    scanScript [{ tag := "A", innerText := "x", x := -100, y := 0, w := 10, h := 10,
                  offsetParentSome := true }] =
      [{ tag := "A", text := "x", x := -100, y := 0, w := 10, h := 10 }] ∧
    centerX { tag := "A", text := "x", x := -100, y := 0, w := 10, h := 10 } = -95 ∧
    ¬ centersInBounds [{ tag := "A", text := "x", x := -100, y := 0, w := 10, h := 10 }]
        { width := 800, height := 600 } := by
  have hcx : centerX { tag := "A", text := "x", x := -100, y := 0, w := 10, h := 10 }
      = -95 := by
    have h : ((-100 : ℚ) + 10 / 2) = ((-95 : ℤ) : ℚ) := by norm_num
    rw [centerX, pyInt]
    show (if 0 ≤ (-100 : ℚ) + 10 / 2 then _ else _) = _
    rw [h, if_neg (by norm_num : ¬ (0 : ℚ) ≤ ((-95 : ℤ) : ℚ))]
    exact Int.ceil_intCast _
  refine ⟨by decide, hcx, fun hb => ?_⟩
  have h0 := (hb _ (List.mem_singleton.2 rfl)).1
  rw [hcx] at h0
  exact absurd h0 (by decide)

/-- Claim C7 (amended): the encoder guarantees in-bounds centers only for
regions whose boxes lie within the frame: if `0 ≤ x`, `0 < w`,
`x + w ≤ width` (and likewise vertically), then the truncated center
satisfies `0 ≤ center_x < width` and `0 ≤ center_y < height`; the code
performs no clamping, so boxes extending outside the frame produce
out-of-bounds centers. -/
theorem c7_centers_in_bounds (el : Element) (fr : Frame)
    (hx : 0 ≤ el.x) (hw : 0 < el.w) (hxw : el.x + el.w ≤ (fr.width : ℚ))
    (hy : 0 ≤ el.y) (hh : 0 < el.h) (hyh : el.y + el.h ≤ (fr.height : ℚ)) :
    0 ≤ centerX el ∧ centerX el < (fr.width : ℤ) ∧
    0 ≤ centerY el ∧ centerY el < (fr.height : ℤ) :=
  ⟨(center_bound hx hw hxw).1, (center_bound hx hw hxw).2,
   (center_bound hy hh hyh).1, (center_bound hy hh hyh).2⟩

/-- Witness for the amended claim C7: the spec's example region
`(x=100, y=50, w=40, h=20)` inside an 800x600 frame has its center
`(120, 60)` within bounds. -/
theorem c7_centers_in_bounds_witness :
    0 ≤ centerX { tag := "BUTTON", text := "Go", x := 100, y := 50, w := 40, h := 20 } ∧
    centerX { tag := "BUTTON", text := "Go", x := 100, y := 50, w := 40, h := 20 }
      < (Frame.width { width := 800, height := 600 } : ℤ) ∧
    0 ≤ centerY { tag := "BUTTON", text := "Go", x := 100, y := 50, w := 40, h := 20 } ∧
    centerY { tag := "BUTTON", text := "Go", x := 100, y := 50, w := 40, h := 20 }
      < (Frame.height { width := 800, height := 600 } : ℤ) :=
  c7_centers_in_bounds
    { tag := "BUTTON", text := "Go", x := 100, y := 50, w := 40, h := 20 }
    { width := 800, height := 600 }
    (by norm_num) (by norm_num) (by norm_num) (by norm_num) (by norm_num) (by norm_num)

/-- Claim C8: the scan pipeline is a pure function of the DOM — two
`visualize` calls whose DOM-scan scripts observe the same unchanged DOM
produce the same CSV (hence the identical ordered id-to-label mapping)
and the same region count, whatever their frames or timestamps. -/
theorem c8_scan_deterministic (dom : List DomEl) (loads : String → Option PyVal)
    (f1 f2 : Frame) (t1 t2 : ℕ) :
    Except.map VisResponse.csv
        (visualize loads (.ok (.plist (scanScript dom))) (.ok f1) t1).1 =
      Except.map VisResponse.csv
        (visualize loads (.ok (.plist (scanScript dom))) (.ok f2) t2).1 ∧
    reportedCount (visualize loads (.ok (.plist (scanScript dom))) (.ok f1) t1) =
      reportedCount (visualize loads (.ok (.plist (scanScript dom))) (.ok f2) t2) :=
  ⟨rfl, rfl⟩

/-- Claim C9 as stated is false in its serialization part: `visualize`
takes no lock around its two awaited browser operations, so the event
loop may run the second call's operations between the first call's
evaluate and screenshot — the schedule A,B,A,B yields a trace that is not
single-flight serialized. -/
theorem c9_counterexample :
    serializedTrace (interleave [true, false, true, false]
      visualizeStages visualizeStages) = false := by decide

/-- Claim C9 (amended): a call's CSV is computed solely from its own
evaluate result and is independent of the captured frame altogether, so
no interleaving can make one call's CSV reference coordinates from the
other call's frame; however the capture-through-annotate stages are NOT
serialized — no lock exists, and non-single-flight interleavings of two
concurrent calls' browser operations are schedulable. -/
theorem c9_csv_locality (loads : String → Option PyVal) (ev : Except String PyVal)
    (f1 f2 : Frame) (t : ℕ) :
    Except.map VisResponse.csv (visualize loads ev (.ok f1) t).1 =
      Except.map VisResponse.csv (visualize loads ev (.ok f2) t).1 ∧
    ∃ sched : List Bool,
      serializedTrace (interleave sched visualizeStages visualizeStages) = false := by
  refine ⟨?_, ⟨[true, false, true, false], by decide⟩⟩
  cases ev with
  | error e => rfl
  | ok v => rfl

/-- Claim C10: a `click` or `fill` request whose CSS selector matches no
element returns HTTP 200 with body `(success := true, result := false)`
rather than an error, and `fill` leaves the page unchanged. -/
theorem c10_missing_selector (doc : List (String × PageEl)) (sel v : String)
    (h : jsQuerySelector doc sel = none) :
    click doc sel = .ok { success := true, result := false } ∧
    (fill_endpoint doc sel v).1 = .ok { success := true, result := false } ∧
    (fill_endpoint doc sel v).2 = doc := by
  refine ⟨?_, ?_, ?_⟩ <;>
    simp [click, fill_endpoint, execute, clickScript, fillScript, h]

/-- Witness for claim C10: on an empty page, clicking or filling
`#missing` returns success with result `false`. -/
theorem c10_missing_selector_witness :
    click [] "#missing" = .ok { success := true, result := false } ∧
    (fill_endpoint [] "#missing" "hello").1 = .ok { success := true, result := false } ∧
    (fill_endpoint [] "#missing" "hello").2 = [] :=
  c10_missing_selector [] "#missing" "hello" rfl
